import Mathlib

/-!
Shallow embedding of `nodestat` (src/main.go): a concurrent health-check
orchestrator for blockchain nodes.  Dynamic JSON values (Go `interface{}`)
are modelled by an inductive `JValue`; Go `int64` arithmetic is modelled by
`Int` with explicit wrap-around where overflow matters; Go operations that
can panic at runtime (unchecked type assertions `x.(string)`, string slicing
`s[2:]` on short strings) are modelled by explicit `panic` constructors of
the result types.  Go strings are modelled by Lean `String`; Go indexes by
byte while we index by character, which coincides on ASCII data (all hex
strings and all inputs used in concrete statements below are ASCII).
The network is modelled by per-node oracles (`RpcEnv`): each field is the
JSON-parsed response body of one of the four queries a node check performs,
`none` standing for a transport failure or a body the JSON parser rejects.
-/

/-- A decoded JSON value, as produced by Go's `json.Unmarshal` into
`interface{}`.  Numbers are modelled by `Int` (Go uses `float64`; only the
shape of numbers matters to this program, never their value). -/
inductive JValue where
  | null
  | bool (b : Bool)
  | num (n : Int)
  | str (s : String)
  | arr (xs : List JValue)
  | obj (fields : List (String × JValue))

/-- Go map lookup `m[key]` on a decoded JSON object: a missing key yields
`nil` (modelled `JValue.null`), exactly like an explicit JSON `null`. -/
def lookupField (fields : List (String × JValue)) (key : String) : JValue :=
  match fields.find? (fun p => p.1 == key) with
  | some p => p.2
  | none => JValue.null

/-- 2^63, the magnitude of the smallest `int64`. -/
def two63 : Int := 9223372036854775808

/-- 2^64. -/
def two64 : Int := 18446744073709551616

/-- Smallest `int64` value. -/
def int64Min : Int := -9223372036854775808

/-- Largest `int64` value. -/
def int64Max : Int := 9223372036854775807

/-- Reduce an integer into the `int64` range by two's-complement
wrap-around. -/
def wrap64 (n : Int) : Int := (n + two63) % two64 - two63

/-- Go `int64` subtraction `a - b` (wraps on overflow). -/
def int64Sub (a b : Int) : Int := wrap64 (a - b)

/-- Value of one hexadecimal digit, mirroring the digits accepted by Go's
`strconv.ParseInt(s, 16, 64)` (no underscores, since the base is explicit). -/
def hexDigitVal? (c : Char) : Option Nat :=
  if '0' ≤ c ∧ c ≤ '9' then some (c.toNat - '0'.toNat)
  else if 'a' ≤ c ∧ c ≤ 'f' then some (c.toNat - 'a'.toNat + 10)
  else if 'A' ≤ c ∧ c ≤ 'F' then some (c.toNat - 'A'.toNat + 10)
  else none

/-- Accumulate a non-empty run of hex digits, most significant first;
`none` on an empty string or any non-digit character. -/
def parseHexNat? (cs : List Char) : Option Nat :=
  match cs with
  | [] => none
  | _ =>
    cs.foldl (fun acc c => acc.bind (fun a => (hexDigitVal? c).map (fun d => 16 * a + d)))
      (some 0)

/-- Go `strconv.ParseInt(s, 16, 64)`: optional sign, then a non-empty run
of base-16 digits; a syntax error or a value outside the `int64` range is
an error (the Go callers in this program only ever test `err != nil`). -/
def parseInt16 (s : String) : Except String Int :=
  let sd : Int × List Char :=
    match s.data with
    | '+' :: rest => (1, rest)
    | '-' :: rest => (-1, rest)
    | cs => (1, cs)
  match parseHexNat? sd.2 with
  | none => Except.error "invalid syntax"
  | some n =>
    let v : Int := sd.1 * (n : Int)
    if v < int64Min ∨ int64Max < v then Except.error "value out of range"
    else Except.ok v

/-- Outcome of Go's `getSyncStatus`, which returns `(string, error)` but can
also panic at runtime when slicing a too-short starting-block string. -/
inductive SyncRes where
  | panic (msg : String)
  | ok (verdict : String) (err : Option String)
deriving DecidableEq

/-- `getSyncStatus` from src/main.go lines 276-299: type-switch on the raw
`eth_syncing` result; any bool is `synced`; an object whose `startingBlock`
is a string is sliced (`s[2:]`, panicking when the string is shorter than
two) and hex-parsed — parse failure yields `unknown` together with the
error; otherwise the 20-block tolerance band decides; every other shape is
`unknown` with no error. -/
def getSyncStatus (statusObject : JValue) (latestBlock : Int) : SyncRes :=
  match statusObject with
  | JValue.bool _ => SyncRes.ok "synced" none
  | JValue.obj fields =>
    match lookupField fields "startingBlock" with
    | JValue.str s =>
      if s.length < 2 then SyncRes.panic "slice bounds out of range"
      else
        match parseInt16 (s.drop 2) with
        | Except.error e => SyncRes.ok "unknown" (some e)
        | Except.ok startingBlockNum =>
          if 20 < int64Sub latestBlock startingBlockNum then SyncRes.ok "syncing" none
          else SyncRes.ok "synced" none
    | _ => SyncRes.ok "unknown" none
  | _ => SyncRes.ok "unknown" none

/-- Outcome of `callRPC` after the HTTP exchange (src/main.go lines 216-245):
a transport failure, a non-JSON body, or a body that is neither a JSON
object nor the literal `null` returns an error; otherwise the `result`
field of the envelope is returned untyped, `nil` (here `JValue.null`) when
absent. -/
inductive RpcRes where
  | err (msg : String)
  | ok (v : JValue)

/-- Decode step of `callRPC` (src/main.go lines 238-244): `parsedBody` is the
response body after JSON parsing, `none` standing for a transport error or a
body `json.Unmarshal` rejects.  A JSON object body yields `result["result"]`
with a `nil` error — even when the `result` key is absent.  A body that is
the JSON literal `null` also unmarshals without error in Go (the target map
is left `nil`), and indexing the nil map yields `nil`, so it too comes back
as a `nil` result with no error.  Every other top-level shape (number,
string, bool, array) is an unmarshal error. -/
def callRPCBody (parsedBody : Option JValue) : RpcRes :=
  match parsedBody with
  | none => RpcRes.err "invalid JSON"
  | some v =>
    match v with
    | JValue.obj fields => RpcRes.ok (lookupField fields "result")
    | JValue.null => RpcRes.ok JValue.null
    | _ => RpcRes.err "cannot unmarshal response into map"

/-- Outcome of decoding a hex value out of an untyped RPC result, or of
`fetchLatestBlock`: an error, a runtime panic (unchecked type assertion or
out-of-range slice), or an `int64`. -/
inductive FetchRes where
  | err (msg : String)
  | panic (msg : String)
  | ok (n : Int)
deriving DecidableEq

/-- The callers' decode of an untyped RPC result as a prefixed hex integer,
`v.(string)[2:]` then `strconv.ParseInt(_, 16, 64)` (src/main.go lines 138
and 150): the unchecked type assertion panics on any non-string (including a
missing result, i.e. `nil`), and the slice panics on a string shorter than
two bytes. -/
def decodeHexField (v : JValue) : FetchRes :=
  match v with
  | JValue.str s =>
    if s.length < 2 then FetchRes.panic "slice bounds out of range"
    else
      match parseInt16 (s.drop 2) with
      | Except.error e => FetchRes.err e
      | Except.ok n => FetchRes.ok n
  | _ => FetchRes.panic "interface conversion"

/-- Decode part of `fetchLatestBlock` (src/main.go lines 247-274), applied to
the reference API response body after JSON parsing (`none` for a transport
error or unparsable body): a `nil` result is an explicit error, a string
result is sliced and hex-parsed, and any other result shape panics on the
unchecked `result["result"].(string)` assertion.  A body that is the JSON
literal `null` unmarshals to a nil map without error, whose `result` entry
is `nil`, hence the explicit error; other non-object bodies are unmarshal
errors. -/
def fetchLatestBlockDecode (parsedBody : Option JValue) : FetchRes :=
  match parsedBody with
  | none => FetchRes.err "unmarshal failure"
  | some v =>
    match v with
    | JValue.obj fields =>
      match lookupField fields "result" with
      | JValue.null => FetchRes.err "no block number found in response"
      | JValue.str s =>
        if s.length < 2 then FetchRes.panic "slice bounds out of range"
        else
          match parseInt16 (s.drop 2) with
          | Except.error e => FetchRes.err e
          | Except.ok n => FetchRes.ok n
      | _ => FetchRes.panic "interface conversion"
    | JValue.null => FetchRes.err "no block number found in response"
    | _ => FetchRes.err "unmarshal failure"

/-- The four JSON-parsed response bodies one node check can observe:
`eth_syncing`, `net_peerCount`, `eth_blockNumber` over the tunnel, and the
reference (scanner) API.  `none` models a transport failure or a body the
JSON parser rejects. -/
structure RpcEnv where
  syncBody : Option JValue
  peerBody : Option JValue
  blockBody : Option JValue
  refBody : Option JValue

/-- `Result` from src/main.go lines 34-40: the per-node record the
orchestrator aggregates.  All fields are plain `int64`/`string` values in
the source — in particular `PeersCount` is a non-nullable `int64`. -/
structure Result where
  SyncStatus : String
  NodeBlockNum : Int
  LatestBlockNum : Int
  Diff : Int
  PeersCount : Int
deriving DecidableEq

/-- Outcome of one node's check goroutine (src/main.go lines 93-175):
an early `return` after a logged error (`failed`), a runtime panic
(`panicked` — in Go this kills the whole process), or a `Result` written
into the shared map (`done`). -/
inductive CheckRes where
  | failed
  | panicked
  | done (r : Result)
deriving DecidableEq

/-- Peer-count step (src/main.go lines 131-143): `peersCountNum` starts at
zero and the `net_peerCount` query runs only when the chain is not `arb`;
its untyped result is then hex-decoded. -/
def peersStep (nodeName : String) (peerBody : Option JValue) : FetchRes :=
  if nodeName == "arb" then FetchRes.ok 0
  else
    match callRPCBody peerBody with
    | RpcRes.err e => FetchRes.err e
    | RpcRes.ok v => decodeHexField v

/-- One node's check sequence (src/main.go lines 125-174): query sync
status, peer count (skipped for `arb`), own block height, then the
reference height; any error returns early with no result.  A classification
error from `getSyncStatus` is only logged — the result is still recorded
with the `unknown` verdict.  `Diff` is `latestBlock - currentNodeBlockNum`
in `int64` arithmetic. -/
def checkNode (nodeName : String) (env : RpcEnv) : CheckRes :=
  match callRPCBody env.syncBody with
  | RpcRes.err _ => CheckRes.failed
  | RpcRes.ok status =>
    match peersStep nodeName env.peerBody with
    | FetchRes.err _ => CheckRes.failed
    | FetchRes.panic _ => CheckRes.panicked
    | FetchRes.ok peersCountNum =>
      match callRPCBody env.blockBody with
      | RpcRes.err _ => CheckRes.failed
      | RpcRes.ok blockV =>
        match decodeHexField blockV with
        | FetchRes.err _ => CheckRes.failed
        | FetchRes.panic _ => CheckRes.panicked
        | FetchRes.ok currentNodeBlockNum =>
          match fetchLatestBlockDecode env.refBody with
          | FetchRes.err _ => CheckRes.failed
          | FetchRes.panic _ => CheckRes.panicked
          | FetchRes.ok latestBlock =>
            match getSyncStatus status latestBlock with
            | SyncRes.panic _ => CheckRes.panicked
            | SyncRes.ok syncStatus _ =>
              CheckRes.done
                ⟨syncStatus, currentNodeBlockNum, latestBlock,
                 int64Sub latestBlock currentNodeBlockNum, peersCountNum⟩

/-- The orchestrator's aggregation (src/main.go lines 84-178): one check per
target; only checks that reach the end write their `(name, Result)` entry
into the shared map.  The concurrent run is modelled by its sequential
outcome over the per-node oracles. -/
def runAll (targets : List (String × RpcEnv)) : List (String × Result) :=
  targets.filterMap (fun t =>
    match checkNode t.1 t.2 with
    | CheckRes.done r => some (t.1, r)
    | _ => none)

/-- An OS process: executable name plus the check that spawned it. -/
structure Proc where
  name : String
  owner : String
deriving DecidableEq

/-- The effect of `killall <pname>`: terminate every process with that
executable name, whoever owns it. -/
def killall (pname : String) (procs : List Proc) : List Proc :=
  procs.filter (fun p => !(p.name == pname))

/-- Tunnel teardown as the source performs it (src/main.go lines 118-122):
the deferred cleanup runs `killall kubectl`, indiscriminately. -/
def tunnelTeardown (procs : List Proc) : List Proc := killall "kubectl" procs

/-- Local-port allocation (src/main.go lines 80-91): `lp` starts at 8080;
when all chains are checked, a counter starting at 1 is added and bumped
per target, so target `i` gets `8080 + (i + 1)`; a single-chain run (the
only way `all` is false, and then there is exactly one target) uses 8080. -/
def allocPorts (all : Bool) (k : Nat) : List Nat :=
  (List.range k).map (fun i => if all then 8080 + (i + 1) else 8080)

/-- Oracle of a fully healthy node: synced, 5 peers, block 0x64 on both
sides. -/
def envSynced : RpcEnv :=
  ⟨some (JValue.obj [("result", JValue.bool false)]),
   some (JValue.obj [("result", JValue.str "0x5")]),
   some (JValue.obj [("result", JValue.str "0x64")]),
   some (JValue.obj [("result", JValue.str "0x64")])⟩

/-- Oracle of a node whose tunnel is down: every call fails at transport
level. -/
def envFailedTransport : RpcEnv := ⟨none, none, none, none⟩

/-- A two-chain run: a healthy `eth` next to a `bsc` whose checker fails at
the very first query. -/
def demoTargets : List (String × RpcEnv) := [("eth", envSynced), ("bsc", envFailedTransport)]

/-- Oracle for an `arb` check: healthy sync/block/reference answers, while
the peer-count endpoint would fail — it is never queried for `arb`. -/
def envArbC : RpcEnv :=
  ⟨some (JValue.obj [("result", JValue.bool false)]),
   none,
   some (JValue.obj [("result", JValue.str "0x64")]),
   some (JValue.obj [("result", JValue.str "0x64")])⟩

theorem wrap64_eq_self (n : Int) (h1 : int64Min ≤ n) (h2 : n ≤ int64Max) :
    wrap64 n = n := by
  unfold wrap64 two63 two64
  unfold int64Min at h1
  unfold int64Max at h2
  rw [Int.emod_eq_of_lt (by omega) (by omega)]
  omega

theorem peersStep_arb (peerBody : Option JValue) :
    peersStep "arb" peerBody = FetchRes.ok 0 := rfl

theorem env_unique_of_nodup {l : List (String × RpcEnv)}
    (hn : (l.map Prod.fst).Nodup) {c : String} {e e' : RpcEnv}
    (h1 : (c, e) ∈ l) (h2 : (c, e') ∈ l) : e = e' := by
  induction l with
  | nil => cases h1
  | cons hd tl ih =>
    rw [List.map_cons, List.nodup_cons] at hn
    cases h1 with
    | head =>
      cases h2 with
      | head => rfl
      | tail _ hmem => exact absurd (List.mem_map_of_mem Prod.fst hmem) hn.1
    | tail _ hmem =>
      cases h2 with
      | head => exact absurd (List.mem_map_of_mem Prod.fst hmem) hn.1
      | tail _ hmem' => exact ih hn.2 hmem hmem'

/-- C1 counterexample: `startingBlock = "0x64"` decodes to `X = 100`; with
reference block `ref = 0` the difference `ref - X = -100` is negative, yet
the code classifies the node as `synced`, so "`synced` iff
`0 ≤ ref - X ≤ 20`" is false as stated. -/
theorem C1_cex :
    getSyncStatus (JValue.obj [("startingBlock", JValue.str "0x64")]) 0 =
      SyncRes.ok "synced" none
    ∧ parseInt16 ("0x64".drop 2) = Except.ok 100
    ∧ ¬ (0 ≤ (0 : Int) - 100) :=
  ⟨rfl, rfl, by decide⟩

/-- C1 (amended): for a structured sync status whose starting-block field is
a decodable hex string with value `X`, and a reference height `ref` such
that `ref - X` does not overflow `int64`, the classifier returns `syncing`
iff `ref - X > 20` and `synced` iff `ref - X ≤ 20` (no lower bound: a
negative difference still classifies as `synced`). -/
theorem C1_sync_band (fields : List (String × JValue)) (s : String) (X ref : Int)
    (hf : lookupField fields "startingBlock" = JValue.str s)
    (hlen : 2 ≤ s.length)
    (hparse : parseInt16 (s.drop 2) = Except.ok X)
    (hlo : int64Min ≤ ref - X) (hhi : ref - X ≤ int64Max) :
    (getSyncStatus (JValue.obj fields) ref = SyncRes.ok "syncing" none ↔ 20 < ref - X)
    ∧ (getSyncStatus (JValue.obj fields) ref = SyncRes.ok "synced" none ↔ ref - X ≤ 20) := by
  have hw : int64Sub ref X = ref - X := by
    unfold int64Sub
    exact wrap64_eq_self _ hlo hhi
  have hred : getSyncStatus (JValue.obj fields) ref =
      if 20 < ref - X then SyncRes.ok "syncing" none else SyncRes.ok "synced" none := by
    simp only [getSyncStatus, hf]
    rw [if_neg (by omega), hparse]
    simp only [hw]
  rw [hred]
  by_cases h : 20 < ref - X
  · rw [if_pos h]
    refine ⟨⟨fun _ => h, fun _ => rfl⟩, ⟨fun hc => ?_, fun hc => ?_⟩⟩
    · injection hc with h1 _
      exact absurd h1 (by decide)
    · omega
  · rw [if_neg h]
    refine ⟨⟨fun hc => ?_, fun hc => absurd hc h⟩, ⟨fun _ => by omega, fun _ => rfl⟩⟩
    injection hc with h1 _
    exact absurd h1 (by decide)

/-- C1 witness: `startingBlock = "0x32"` (X = 50) against reference 100:
difference 50 exceeds the 20-block band, so the verdict is `syncing`. -/
theorem C1_sync_band_witness :
    (getSyncStatus (JValue.obj [("startingBlock", JValue.str "0x32")]) 100 =
        SyncRes.ok "syncing" none ↔ 20 < (100 : Int) - 50)
    ∧ (getSyncStatus (JValue.obj [("startingBlock", JValue.str "0x32")]) 100 =
        SyncRes.ok "synced" none ↔ (100 : Int) - 50 ≤ 20) :=
  C1_sync_band [("startingBlock", JValue.str "0x32")] "0x32" 50 100 rfl (by decide)
    rfl (by decide) (by decide)

/-- C5 counterexample: a well-formed JSON object body with no `result` field
makes `callRPC` return the default `nil` value with no error at all, not a
typed failure. -/
theorem C5_cex :
    callRPCBody (some (JValue.obj [("id", JValue.num 1)])) = RpcRes.ok JValue.null
    ∧ ∀ e, callRPCBody (some (JValue.obj [("id", JValue.num 1)])) ≠ RpcRes.err e :=
  ⟨rfl, fun _ h => nomatch h⟩

/-- C5 (amended): `callRPC` surfaces transport failures, non-JSON bodies,
and JSON bodies that are neither an object nor the literal `null` as
errors; but a JSON object missing the `result` field — and likewise a bare
`null` body, which Go unmarshals into a nil map without error — is returned
as a `nil` result with no error, the absence only discovered (or panicking)
downstream. -/
theorem C5_envelope (parsedBody : Option JValue) :
    (∀ fields, parsedBody = some (JValue.obj fields) →
      lookupField fields "result" = JValue.null →
      callRPCBody parsedBody = RpcRes.ok JValue.null)
    ∧ (parsedBody = some JValue.null → callRPCBody parsedBody = RpcRes.ok JValue.null)
    ∧ (parsedBody = none → callRPCBody parsedBody = RpcRes.err "invalid JSON")
    ∧ (∀ v, parsedBody = some v → (∀ fields, v ≠ JValue.obj fields) →
      v ≠ JValue.null →
      ∃ e, callRPCBody parsedBody = RpcRes.err e) := by
  refine ⟨?_, ?_, ?_, ?_⟩
  · intro fields h1 h2
    subst h1
    simp [callRPCBody, h2]
  · intro h
    subst h
    rfl
  · intro h
    subst h
    rfl
  · intro v h1 h2 h3
    subst h1
    cases v with
    | obj fields => exact absurd rfl (h2 fields)
    | null => exact absurd rfl h3
    | bool b => exact ⟨_, rfl⟩
    | num n => exact ⟨_, rfl⟩
    | str s => exact ⟨_, rfl⟩
    | arr xs => exact ⟨_, rfl⟩

/-- C5 witness: an object body that carries only a `jsonrpc` field, and a
bare `null` body, both come back as `nil` result with no error. -/
theorem C5_envelope_witness :
    callRPCBody (some (JValue.obj [("jsonrpc", JValue.str "2.0")])) =
      RpcRes.ok JValue.null
    ∧ callRPCBody (some JValue.null) = RpcRes.ok JValue.null :=
  ⟨(C5_envelope (some (JValue.obj [("jsonrpc", JValue.str "2.0")]))).1
      [("jsonrpc", JValue.str "2.0")] rfl rfl,
   (C5_envelope (some JValue.null)).2.1 rfl⟩

/-- C6: the hex decodes are not total — a missing result (`nil`), a numeric
result, or a string shorter than the assumed two-byte prefix makes the code
panic (unchecked `.(string)` assertion or out-of-range slice) instead of
yielding a per-step failure. -/
theorem C6_panics :
    decodeHexField JValue.null = FetchRes.panic "interface conversion"
    ∧ decodeHexField (JValue.num 5) = FetchRes.panic "interface conversion"
    ∧ decodeHexField (JValue.str "a") = FetchRes.panic "slice bounds out of range"
    ∧ fetchLatestBlockDecode (some (JValue.obj [("result", JValue.num 5)])) =
        FetchRes.panic "interface conversion" :=
  ⟨rfl, rfl, rfl, rfl⟩

/-- C4 counterexample: the boolean `true` is not the boolean-false shape and
not a structured object, yet the classifier answers `synced`, not
`unknown` — the Go type switch matches any bool. -/
theorem C4_cex :
    getSyncStatus (JValue.bool true) 0 = SyncRes.ok "synced" none
    ∧ getSyncStatus (JValue.bool true) 0 ≠ SyncRes.ok "unknown" none :=
  ⟨rfl, by decide⟩

/-- C4 (amended): every raw sync status that is not a boolean (of either
value) and not a structured object whose `startingBlock` field is a string
classifies as `unknown` with no error; this includes structured objects
lacking the starting-block field. -/
theorem C4_other_shapes (v : JValue) (ref : Int)
    (hb : ∀ b, v ≠ JValue.bool b)
    (hs : ∀ fields s, v = JValue.obj fields →
      lookupField fields "startingBlock" ≠ JValue.str s) :
    getSyncStatus v ref = SyncRes.ok "unknown" none := by
  cases v with
  | bool b => exact absurd rfl (hb b)
  | obj fields =>
    simp only [getSyncStatus]
    cases hfv : lookupField fields "startingBlock" <;>
      first
        | rfl
        | exact absurd hfv (hs fields _ rfl)
  | null => rfl
  | num n => rfl
  | str s => rfl
  | arr xs => rfl

/-- C4 witness: a bare string shape (no starting-block object) classifies as
`unknown` with no error. -/
theorem C4_other_shapes_witness :
    getSyncStatus (JValue.str "0xff") 7 = SyncRes.ok "unknown" none :=
  C4_other_shapes (JValue.str "0xff") 7 (fun _ h => nomatch h)
    (fun _ _ h => nomatch h)

/-- C10: a structured sync status whose `startingBlock` field is anything but
a string (a number, `null`, an array, ...) classifies as `unknown` with no
error, exactly as if the field were absent. -/
theorem C10_nonstring_unknown (fields : List (String × JValue)) (ref : Int)
    (hns : ∀ s, lookupField fields "startingBlock" ≠ JValue.str s) :
    getSyncStatus (JValue.obj fields) ref = SyncRes.ok "unknown" none := by
  simp only [getSyncStatus]

/-- C10 witness: `startingBlock` carrying the number 5 yields `unknown`, no
error. -/
theorem C10_nonstring_unknown_witness :
    getSyncStatus (JValue.obj [("startingBlock", JValue.num 5)]) 100 =
      SyncRes.ok "unknown" none :=
  C10_nonstring_unknown [("startingBlock", JValue.num 5)] 100 (fun _ h => nomatch h)

/-- C7 counterexample: a starting-block string of length one fails to
decode, but instead of the claimed `unknown`-with-error the classification
panics on the `s[2:]` slice. -/
theorem C7_cex :
    getSyncStatus (JValue.obj [("startingBlock", JValue.str "a")]) 100 =
      SyncRes.panic "slice bounds out of range"
    ∧ ∀ e, getSyncStatus (JValue.obj [("startingBlock", JValue.str "a")]) 100 ≠
        SyncRes.ok "unknown" e :=
  ⟨rfl, fun _ h => nomatch h⟩

/-- C7 (amended): when the starting-block field is a string of at least two
characters whose hex decode fails, classification is `unknown` with the
decode error surfaced, and the node's check still completes: with the other
three queries answering normally it records a `Result` carrying the
`unknown` verdict instead of failing the node. -/
theorem C7_decode_fail_unknown (fields : List (String × JValue)) (s : String)
    (ref : Int) (e : String)
    (hf : lookupField fields "startingBlock" = JValue.str s)
    (hlen : 2 ≤ s.length)
    (hfail : parseInt16 (s.drop 2) = Except.error e) :
    getSyncStatus (JValue.obj fields) ref = SyncRes.ok "unknown" (some e)
    ∧ checkNode "eth"
        ⟨some (JValue.obj [("result", JValue.obj fields)]),
         some (JValue.obj [("result", JValue.str "0x5")]),
         some (JValue.obj [("result", JValue.str "0x64")]),
         some (JValue.obj [("result", JValue.str "0x64")])⟩
      = CheckRes.done ⟨"unknown", 100, 100, 0, 5⟩ := by
  have hcls : ∀ r : Int, getSyncStatus (JValue.obj fields) r =
      SyncRes.ok "unknown" (some e) := by
    intro r
    simp only [getSyncStatus, hf]
    rw [if_neg (by omega), hfail]
  refine ⟨hcls ref, ?_⟩
  show (match getSyncStatus (JValue.obj fields) 100 with
        | SyncRes.panic _ => CheckRes.panicked
        | SyncRes.ok st _ => CheckRes.done ⟨st, 100, 100, int64Sub 100 100, 5⟩)
      = CheckRes.done ⟨"unknown", 100, 100, 0, 5⟩
  rw [hcls 100]
  exact rfl

/-- C7 witness: `startingBlock = "0xzz"` fails hex decoding; the verdict is
`unknown` with the syntax error surfaced, and the check still records a
result with that verdict. -/
theorem C7_decode_fail_unknown_witness :
    getSyncStatus (JValue.obj [("startingBlock", JValue.str "0xzz")]) 100 =
      SyncRes.ok "unknown" (some "invalid syntax")
    ∧ checkNode "eth"
        ⟨some (JValue.obj [("result",
            JValue.obj [("startingBlock", JValue.str "0xzz")])]),
         some (JValue.obj [("result", JValue.str "0x5")]),
         some (JValue.obj [("result", JValue.str "0x64")]),
         some (JValue.obj [("result", JValue.str "0x64")])⟩
      = CheckRes.done ⟨"unknown", 100, 100, 0, 5⟩ :=
  C7_decode_fail_unknown [("startingBlock", JValue.str "0xzz")] "0xzz" 100
    "invalid syntax" rfl (by decide) rfl

/-- C9 counterexample: for `arb` the check succeeds without ever querying
peers, but the recorded `Result` carries the concrete integer zero in its
non-nullable `PeersCount` field — a zero value, not a null/absent one. -/
theorem C9_cex :
    checkNode "arb" envArbC = CheckRes.done ⟨"synced", 100, 100, 0, 0⟩ := rfl

/-- C9 (amended): for `arb` the peer-count query is skipped entirely — the
check's outcome is independent of the peer-count oracle, so even a failing
peer endpoint cannot fail the check — and every successful `arb` result
carries a zero peer count (whose report line the printer suppresses),
rather than a null/absent one. -/
theorem C9_arb_peercount :
    (∀ (sb bb rb pb pb' : Option JValue),
      checkNode "arb" ⟨sb, pb, bb, rb⟩ = checkNode "arb" ⟨sb, pb', bb, rb⟩)
    ∧ (∀ (env : RpcEnv) (r : Result),
      checkNode "arb" env = CheckRes.done r → r.PeersCount = 0) := by
  constructor
  · intro sb bb rb pb pb'
    rfl
  · intro env r h
    obtain ⟨sb, pb, bb, rb⟩ := env
    simp only [checkNode, peersStep_arb] at h
    cases h1 : callRPCBody sb with
    | err m => rw [h1] at h; exact nomatch h
    | ok status =>
      simp only [h1] at h
      cases h2 : callRPCBody bb with
      | err m => rw [h2] at h; exact nomatch h
      | ok blockV =>
        simp only [h2] at h
        cases h3 : decodeHexField blockV with
        | err m => rw [h3] at h; exact nomatch h
        | panic m => rw [h3] at h; exact nomatch h
        | ok cbn =>
          simp only [h3] at h
          cases h4 : fetchLatestBlockDecode rb with
          | err m => rw [h4] at h; exact nomatch h
          | panic m => rw [h4] at h; exact nomatch h
          | ok lb =>
            simp only [h4] at h
            cases h5 : getSyncStatus status lb with
            | panic m => rw [h5] at h; exact nomatch h
            | ok st er =>
              simp only [h5] at h
              injection h with h6
              rw [← h6]

/-- C9 witness: changing the peer oracle of an `arb` check (here: from a
garbage number to a dead endpoint) does not change its outcome, and the
successful result carries peer count zero. -/
theorem C9_arb_peercount_witness :
    checkNode "arb"
      ⟨some (JValue.obj [("result", JValue.bool false)]),
       some (JValue.num 3),
       some (JValue.obj [("result", JValue.str "0x64")]),
       some (JValue.obj [("result", JValue.str "0x64")])⟩
      = checkNode "arb" envArbC
    ∧ (⟨"synced", 100, 100, 0, 0⟩ : Result).PeersCount = 0 :=
  ⟨C9_arb_peercount.1 (some (JValue.obj [("result", JValue.bool false)]))
      (some (JValue.obj [("result", JValue.str "0x64")]))
      (some (JValue.obj [("result", JValue.str "0x64")]))
      (some (JValue.num 3)) none,
   C9_arb_peercount.2 envArbC ⟨"synced", 100, 100, 0, 0⟩ rfl⟩

/-- C2: in the sequential model of a run whose checkers do not panic
(a panic would kill the whole Go process) over distinct chain names, a
chain holds a key in the aggregated mapping exactly when its whole check
sequence succeeded; a chain that failed contributes no entry at all, and
every other chain whose check succeeded still appears. -/
theorem C2_partial_failure_isolation (targets : List (String × RpcEnv))
    (hnodup : (targets.map Prod.fst).Nodup)
    (hnp : ∀ t ∈ targets, checkNode t.1 t.2 ≠ CheckRes.panicked) :
    (∀ c r, (c, r) ∈ runAll targets →
      ∃ env, (c, env) ∈ targets ∧ checkNode c env = CheckRes.done r)
    ∧ (∀ c env, (c, env) ∈ targets → checkNode c env = CheckRes.failed →
      ∀ r, (c, r) ∉ runAll targets)
    ∧ (∀ c env r, (c, env) ∈ targets → checkNode c env = CheckRes.done r →
      (c, r) ∈ runAll targets) := by
  have key : ∀ c r, (c, r) ∈ runAll targets →
      ∃ env, (c, env) ∈ targets ∧ checkNode c env = CheckRes.done r := by
    intro c r h
    rw [runAll, List.mem_filterMap] at h
    obtain ⟨a, hmem, heq⟩ := h
    cases hc : checkNode a.1 a.2 with
    | failed => rw [hc] at heq; exact nomatch heq
    | panicked => rw [hc] at heq; exact nomatch heq
    | done r' =>
      rw [hc] at heq
      injection heq with heq2
      rw [Prod.mk.injEq] at heq2
      refine ⟨a.2, ?_, ?_⟩
      · rw [← heq2.1]
        exact hmem
      · rw [← heq2.1, ← heq2.2]
        exact hc
  refine ⟨key, ?_, ?_⟩
  · intro c env hmem hfail r hr
    obtain ⟨env', hmem', hdone⟩ := key c r hr
    rw [env_unique_of_nodup hnodup hmem' hmem] at hdone
    rw [hfail] at hdone
    exact nomatch hdone
  · intro c env r hmem hdone
    rw [runAll, List.mem_filterMap]
    refine ⟨(c, env), hmem, ?_⟩
    rw [hdone]

/-- C2 witness: a run over a healthy `eth` and a `bsc` whose tunnel is dead:
the three isolation properties hold for this concrete run. -/
theorem C2_partial_failure_isolation_witness :
    (∀ c r, (c, r) ∈ runAll demoTargets →
      ∃ env, (c, env) ∈ demoTargets ∧ checkNode c env = CheckRes.done r)
    ∧ (∀ c env, (c, env) ∈ demoTargets → checkNode c env = CheckRes.failed →
      ∀ r, (c, r) ∉ runAll demoTargets)
    ∧ (∀ c env r, (c, env) ∈ demoTargets → checkNode c env = CheckRes.done r →
      (c, r) ∈ runAll demoTargets) :=
  C2_partial_failure_isolation demoTargets (by decide) (by decide)

/-- C3: the claim states teardown only touches the exiting check's own
tunnel, but the deferred cleanup runs `killall kubectl`: with an `eth` check
and a `bsc` check each owning a live `kubectl` forwarding process, the
teardown performed by the `eth` check terminates both — in particular the
`bsc` tunnel, which was alive just before. -/
theorem C3_teardown_kills_all :
    tunnelTeardown [⟨"kubectl", "eth"⟩, ⟨"kubectl", "bsc"⟩] = []
    ∧ ([⟨"kubectl", "eth"⟩, ⟨"kubectl", "bsc"⟩] : List Proc).filter
        (fun p => p.owner == "bsc") = [⟨"kubectl", "bsc"⟩] :=
  ⟨rfl, rfl⟩

/-- C8: an all-chains run with `k` targets allocates the `k` distinct local
ports `8081 .. 8080 + k` (a private range disjoint from the single-chain
port only when unused concurrently: a single-chain run has exactly one
target and uses 8080 alone), so no two concurrently-open tunnels share a
local port. -/
theorem C8_distinct_ports (k : Nat) :
    (allocPorts true k).length = k
    ∧ (allocPorts true k).Nodup
    ∧ (∀ p ∈ allocPorts true k, 8080 < p ∧ p ≤ 8080 + k)
    ∧ (allocPorts false 1).length = 1 ∧ (allocPorts false 1).Nodup := by
  refine ⟨by simp [allocPorts], ?_, ?_, by simp [allocPorts], by simp [allocPorts]⟩
  · have hrw : allocPorts true k = (List.range k).map (fun i => 8080 + (i + 1)) := by
      simp [allocPorts]
    rw [hrw]
    exact List.Nodup.map (fun a b hab => by omega) (List.nodup_range k)
  · intro p hp
    simp only [allocPorts, if_true] at hp
    rw [List.mem_map] at hp
    obtain ⟨i, hi, hpe⟩ := hp
    rw [List.mem_range] at hi
    omega

/-- C8 witness: a three-target run allocates the three distinct ports 8081,
8082, 8083. -/
theorem C8_distinct_ports_witness :
    (allocPorts true 3).length = 3
    ∧ (allocPorts true 3).Nodup
    ∧ (∀ p ∈ allocPorts true 3, 8080 < p ∧ p ≤ 8080 + 3)
    ∧ (allocPorts false 1).length = 1 ∧ (allocPorts false 1).Nodup :=
  C8_distinct_ports 3
